import Mathlib

/-!
Verification of the matching engine of the faculty career matching system.

The definitions below are a shallow embedding of
`src/services/matching_service.py` (class `MatchingService`) together with the
slices of `src/models/models.py` that the engine reads.  Conventions:

* Python `float` values are modelled as `ℚ` (the algorithm only ever performs
  field arithmetic on them).  Python `round(x, 2)` is modelled with Mathlib's
  `round` (`round2` below); the two can differ only on exact half-way ties,
  which no statement in this file exercises.
* A Python `ZeroDivisionError` aborts the computation, so every function that
  can reach a division whose divisor may be zero returns an `Option`; `none`
  models the raised exception.  The guards sit exactly at the divisions the
  source performs (`(10 - job.minimum_gpa)` in the GPA bonus and
  `total_requirement_weight` in the requirement loop).  Divisions whose
  divisor is structurally nonzero (literal `10`, a length known positive, the
  guarded `max_possible_score`) need no guard.
* The SQLAlchemy session is modelled as an immutable snapshot `DB` of the
  tables the engine queries; `query(...).filter(...).first()` becomes
  `List.find?` and `.all()` becomes `List.filter`, preserving row order.
* `datetime.utcnow().isoformat()` is modelled by an explicit `now : String`
  argument.  The timestamp is stored in the breakdown's `calculated_at` field
  and used nowhere else, so the embedding computes the breakdown first and
  injects the timestamp with `Breakdown.withTime`.
* `save_log=True` additionally appends a `MatchingLog` row in the source and
  does not affect the returned `(score, details)` pair; the parameter is kept
  for fidelity of call sites but has no effect on the modelled return value.
-/

namespace CareerMatching

/-- Job posting status (`models.JobStatus`). -/
inductive JobStatus where
  | OPEN
  | CLOSED
  | FILLED
deriving DecidableEq, Repr

/-- Authentication record (`models.User`); only the fields the engine reads. -/
structure User where
  id : Nat
  email : String
  is_active : Bool
deriving DecidableEq, Repr

/-- Student profile (`models.Student`); only the fields the engine reads. -/
structure Student where
  id : Nat
  user_id : Nat
  full_name : String
  registration_number : String
  course : String
  semester : Int
  gpa : ℚ
deriving DecidableEq, Repr

/-- Academic subject (`models.Subject`); only the fields the engine reads. -/
structure Subject where
  id : Nat
  code : String
  name : String
deriving DecidableEq, Repr

/-- A grade row (`models.Grade`). -/
structure Grade where
  student_id : Nat
  subject_id : Nat
  grade : ℚ
deriving DecidableEq, Repr

/-- Company profile (`models.Company`); only the fields the engine reads. -/
structure Company where
  id : Nat
  company_name : String
deriving DecidableEq, Repr

/-- Job posting (`models.Job`); only the fields the engine reads.
`preferred_courses` models the `Text` column after the JSON / comma-separated
parsing of lines 87-91 of the service: `none` stands for a falsy column value
(`NULL` or the empty string), `some cs` for a truthy string parsing to the
course list `cs` (so `some []` models the string `"[]"`).
`minimum_semester` models the nullable integer column. -/
structure Job where
  id : Nat
  company_id : Nat
  title : String
  location : Option String
  work_type : Option String
  salary_range : Option String
  minimum_gpa : ℚ
  minimum_semester : Option Int
  preferred_courses : Option (List String)
  status : JobStatus
deriving DecidableEq, Repr

/-- Per-subject job requirement (`models.JobRequirement`). -/
structure JobRequirement where
  job_id : Nat
  subject_id : Nat
  minimum_grade : ℚ
  weight : ℚ
  is_mandatory : Bool
deriving DecidableEq, Repr

/-- A snapshot of the tables the matching engine queries. -/
structure DB where
  users : List User
  students : List Student
  subjects : List Subject
  grades : List Grade
  companies : List Company
  jobs : List Job
  job_requirements : List JobRequirement
deriving Repr

/-- `self.db.query(Student).filter(Student.id == student_id).first()`. -/
def lookupStudent (db : DB) (student_id : Nat) : Option Student :=
  db.students.find? (fun s => s.id == student_id)

/-- `self.db.query(Job).filter(Job.id == job_id).first()`. -/
def lookupJob (db : DB) (job_id : Nat) : Option Job :=
  db.jobs.find? (fun j => j.id == job_id)

/-- `self.db.query(Grade).filter(Grade.student_id == ..., Grade.subject_id == ...).first()`. -/
def lookupGrade (db : DB) (student_id subject_id : Nat) : Option Grade :=
  db.grades.find? (fun g => g.student_id == student_id && g.subject_id == subject_id)

/-- `self.db.query(Subject).filter(Subject.id == req.subject_id).first()`. -/
def lookupSubject (db : DB) (subject_id : Nat) : Option Subject :=
  db.subjects.find? (fun s => s.id == subject_id)

/-- `self.db.query(JobRequirement).filter(JobRequirement.job_id == job_id).all()`. -/
def jobRequirementsOf (db : DB) (job_id : Nat) : List JobRequirement :=
  db.job_requirements.filter (fun r => r.job_id == job_id)

/-- The fixed criterion weight `gpa_weight = 20.0`. -/
def gpa_weight : ℚ := 20

/-- The fixed criterion weight `semester_weight = 10.0`. -/
def semester_weight : ℚ := 10

/-- The fixed criterion weight `course_weight = 15.0`. -/
def course_weight : ℚ := 15

/-- The fixed criterion weight `subject_weight = 55.0`. -/
def subject_weight : ℚ := 55

/-- Python `round(x, 2)` (up to half-way ties, see the header comment). -/
def round2 (q : ℚ) : ℚ := ((round (q * 100) : ℤ) : ℚ) / 100

/-- GPA criterion, lines 46-60 of the service: returns
`(points, gpa_match, gpa_deficit)`; `none` models the `ZeroDivisionError`
raised when `job.minimum_gpa = 10` and the bonus division `/(10 - minimum_gpa)`
executes. -/
def gpaCriterion (gpa minimum_gpa : ℚ) : Option (ℚ × Bool × Option ℚ) :=
  if minimum_gpa ≤ gpa then
    if 0 < minimum_gpa then
      if (10 : ℚ) - minimum_gpa = 0 then none
      else
        let excess := (gpa - minimum_gpa) / (10 - minimum_gpa)
        some (gpa_weight + min (excess * 5) 5, true, none)
    else some (gpa_weight, true, none)
  else some (0, false, some (minimum_gpa - gpa))

/-- Semester criterion, lines 65-78: returns
`(points, semester_match, semester_deficit)`.  Python's
`if job.minimum_semester:` is falsy for `NULL` and for `0`, both of which
award the full weight. -/
def semesterCriterion (semester : Int) (minimum_semester : Option Int) :
    ℚ × Bool × Option Int :=
  match minimum_semester with
  | some m =>
    if m = 0 then (semester_weight, true, none)
    else if m ≤ semester then (semester_weight, true, none)
    else (0, false, some (m - semester))
  | none => (semester_weight, true, none)

/-- Course criterion, lines 83-100: returns `(points, course_match)`. -/
def courseCriterion (course : String) (preferred_courses : Option (List String)) :
    ℚ × Bool :=
  match preferred_courses with
  | some courses => if course ∈ courses then (course_weight, true) else (0, false)
  | none => (course_weight, true)

/-- Per-requirement breakdown entry (the `subject_info` dict, lines 132-145). -/
structure SubjectInfo where
  subject_id : Nat
  subject_code : Option String
  subject_name : Option String
  required_grade : ℚ
  weight : ℚ
  is_mandatory : Bool
  student_grade : Option ℚ
  met : Bool
  grade_excess : Option ℚ
deriving DecidableEq, Repr

/-- Accumulator of the requirement loop, lines 114-160: the running
`subject_score` and the `matched_subjects` / `missing_subjects` /
`mandatory_missing` lists (appended in iteration order). -/
structure SubjState where
  score : ℚ
  matched : List SubjectInfo
  missing : List SubjectInfo
  mandatoryMissing : List SubjectInfo
deriving DecidableEq, Repr

/-- `total_requirement_weight = sum(req.weight for req in job_requirements)`. -/
def totalRequirementWeight (reqs : List JobRequirement) : ℚ :=
  (reqs.map (fun r => r.weight)).sum

/-- One iteration of the requirement loop (lines 121-160).  `none` models the
`ZeroDivisionError` of `req.weight / total_requirement_weight` when the weight
sum is zero and a met requirement reaches that division. -/
def processRequirement (db : DB) (student_id : Nat) (total_requirement_weight : ℚ)
    (st : SubjState) (req : JobRequirement) : Option SubjState :=
  let grade? := lookupGrade db student_id req.subject_id
  let subject? := lookupSubject db req.subject_id
  let info : SubjectInfo :=
    { subject_id := req.subject_id
      subject_code := subject?.map (fun s => s.code)
      subject_name := subject?.map (fun s => s.name)
      required_grade := req.minimum_grade
      weight := req.weight
      is_mandatory := req.is_mandatory
      student_grade := grade?.map (fun g => g.grade)
      met := false
      grade_excess := none }
  match grade? with
  | some g =>
    if req.minimum_grade ≤ g.grade then
      if total_requirement_weight = 0 then none
      else
        let info2 := { info with met := true, grade_excess := some (g.grade - req.minimum_grade) }
        let grade_factor := g.grade / 10
        let requirement_share := req.weight / total_requirement_weight
        some { st with
          score := st.score + subject_weight * requirement_share * grade_factor
          matched := st.matched ++ [info2] }
    else
      some { st with
        missing := st.missing ++ [info]
        mandatoryMissing :=
          if req.is_mandatory then st.mandatoryMissing ++ [info] else st.mandatoryMissing }
  | none =>
    some { st with
      missing := st.missing ++ [info]
      mandatoryMissing :=
        if req.is_mandatory then st.mandatoryMissing ++ [info] else st.mandatoryMissing }

/-- The full requirement loop (`for req in job_requirements:`, lines 121-160). -/
def subjectLoop (db : DB) (student_id : Nat) (total_requirement_weight : ℚ) :
    SubjState → List JobRequirement → Option SubjState
  | st, [] => some st
  | st, req :: rest =>
    match processRequirement db student_id total_requirement_weight st req with
    | none => none
    | some st2 => subjectLoop db student_id total_requirement_weight st2 rest

/-- Python decimal formatting `"%.1f"` (up to half-way ties, cf. `round2`). -/
def fmt1 (q : ℚ) : String :=
  let n := round (q * 10)
  if n < 0 then "-" ++ toString ((-n).toNat / 10) ++ "." ++ toString ((-n).toNat % 10)
  else toString (n.toNat / 10) ++ "." ++ toString (n.toNat % 10)

/-- Python decimal formatting `"%.0f"` (up to half-way ties, cf. `round2`). -/
def fmt0 (q : ℚ) : String :=
  let n := round q
  if n < 0 then "-" ++ toString (-n).toNat else toString n.toNat

/-- Python `"; ".join(reasons)`. -/
def joinReasons : List String → String
  | [] => ""
  | [r] => r
  | r :: rs => r ++ "; " ++ joinReasons rs

/-- `MatchingService._generate_recommendation` (lines 287-307), applied to the
breakdown fields it reads (`gpa_match`, `student_gpa`, `course_match`,
`matched_subjects`, `missing_subjects`). -/
def generate_recommendation (gpa_match : Bool) (student_gpa : ℚ) (course_match : Bool)
    (matched_subjects missing_subjects : List SubjectInfo) : String :=
  let reasons : List String :=
    (if gpa_match then ["GPA (" ++ fmt1 student_gpa ++ ") meets requirement"] else []) ++
    (if course_match then ["Course matches preferred courses"] else []) ++
    (if 0 < matched_subjects.length + missing_subjects.length then
      [toString matched_subjects.length ++ "/" ++
        toString (matched_subjects.length + missing_subjects.length) ++
        " required subjects met (" ++
        fmt0 ((matched_subjects.length : ℚ) /
          ((matched_subjects.length : ℚ) + (missing_subjects.length : ℚ)) * 100) ++ "%)"]
     else [])
  if reasons = [] then "General match" else joinReasons reasons

/-- The `details` dictionary of a successful score calculation.  Optional
fields model keys the source sets only on some paths: `gpa_deficit` and
`semester_deficit` only on the failing branch, `mandatory_missing` and
`subject_match_percentage` only when the job has requirements. -/
structure Details where
  calculated_at : String
  student_id : Nat
  job_id : Nat
  student_name : String
  job_title : String
  gpa_match : Bool
  gpa_deficit : Option ℚ
  student_gpa : ℚ
  required_gpa : ℚ
  semester_match : Bool
  semester_deficit : Option Int
  student_semester : Int
  required_semester : Option Int
  course_match : Bool
  student_course : String
  preferred_courses : Option (List String)
  matched_subjects : List SubjectInfo
  missing_subjects : List SubjectInfo
  mandatory_missing : Option (List SubjectInfo)
  subject_match_percentage : Option ℚ
  final_score : ℚ
  raw_score : ℚ
  max_possible_score : ℚ
  recommendation_reason : String
deriving DecidableEq, Repr

/-- The dictionary returned as second component of `calculate_match_score`:
either the not-found error marker `{"error": "Student or Job not found"}` or a
full `Details` breakdown. -/
inductive Breakdown where
  | error (msg : String)
  | ok (d : Details)
deriving DecidableEq, Repr

/-- Injects the wall-clock timestamp (`details["calculated_at"]`) into a
breakdown; the error dictionary carries no timestamp. -/
def Breakdown.withTime (b : Breakdown) (now : String) : Breakdown :=
  match b with
  | .error m => .error m
  | .ok d => .ok { d with calculated_at := now }

/-- `MatchingService.calculate_match_score` (lines 19-197) minus the timestamp
and the log write: computes the `(final_score, details)` pair with
`calculated_at` left empty.  `none` models an uncaught `ZeroDivisionError`. -/
def calculateDetails (db : DB) (student_id job_id : Nat) : Option (ℚ × Breakdown) :=
  match lookupStudent db student_id, lookupJob db job_id with
  | some student, some job =>
    (gpaCriterion student.gpa job.minimum_gpa).bind (fun gpaRes =>
      let semRes := semesterCriterion student.semester job.minimum_semester
      let courseRes := courseCriterion student.course job.preferred_courses
      let job_requirements := jobRequirementsOf db job_id
      let subjRes : Option (ℚ × List SubjectInfo × List SubjectInfo ×
          Option (List SubjectInfo) × Option ℚ) :=
        if job_requirements = [] then some (subject_weight, [], [], none, none)
        else
          (subjectLoop db student_id (totalRequirementWeight job_requirements)
              ⟨0, [], [], []⟩ job_requirements).map
            (fun st => (st.score, st.matched, st.missing, some st.mandatoryMissing,
              some (if job_requirements = [] then 100
                else (st.matched.length : ℚ) / (job_requirements.length : ℚ) * 100)))
      subjRes.map (fun sr =>
        let total_score := gpaRes.1 + semRes.1 + courseRes.1 + sr.1
        let max_possible_score := gpa_weight + semester_weight + course_weight + subject_weight
        let final_score :=
          if 0 < max_possible_score then total_score / max_possible_score * 100 else 0
        (final_score, Breakdown.ok {
          calculated_at := ""
          student_id := student_id
          job_id := job_id
          student_name := student.full_name
          job_title := job.title
          gpa_match := gpaRes.2.1
          gpa_deficit := gpaRes.2.2
          student_gpa := student.gpa
          required_gpa := job.minimum_gpa
          semester_match := semRes.2.1
          semester_deficit := semRes.2.2
          student_semester := student.semester
          required_semester := job.minimum_semester
          course_match := courseRes.2
          student_course := student.course
          preferred_courses := job.preferred_courses
          matched_subjects := sr.2.1
          missing_subjects := sr.2.2.1
          mandatory_missing := sr.2.2.2.1
          subject_match_percentage := sr.2.2.2.2
          final_score := round2 final_score
          raw_score := round2 total_score
          max_possible_score := max_possible_score
          recommendation_reason :=
            generate_recommendation gpaRes.2.1 student.gpa courseRes.2 sr.2.1 sr.2.2.1 })))
  | _, _ => some (0, Breakdown.error "Student or Job not found")

/-- `MatchingService.calculate_match_score` with the timestamp injected.
`save_log` is kept for fidelity: in the source it only appends a
`MatchingLog` row and never changes the returned pair. -/
def calculate_match_score (db : DB) (student_id job_id : Nat)
    (save_log : Bool) (now : String) : Option (ℚ × Breakdown) :=
  (calculateDetails db student_id job_id).map (fun r => (r.1, r.2.withTime now))

/-- `details.get("raw_score", 0)`. -/
def Breakdown.rawScoreD : Breakdown → ℚ
  | .error _ => 0
  | .ok d => d.raw_score

/-- `details.get("matched_subjects", [])`. -/
def Breakdown.matchedD : Breakdown → List SubjectInfo
  | .error _ => []
  | .ok d => d.matched_subjects

/-- `details.get("missing_subjects", [])`. -/
def Breakdown.missingD : Breakdown → List SubjectInfo
  | .error _ => []
  | .ok d => d.missing_subjects

/-- `details.get("gpa_match", False)`. -/
def Breakdown.gpaMatchD : Breakdown → Bool
  | .error _ => false
  | .ok d => d.gpa_match

/-- `details.get("semester_match", False)`. -/
def Breakdown.semesterMatchD : Breakdown → Bool
  | .error _ => false
  | .ok d => d.semester_match

/-- `details.get("course_match", False)`. -/
def Breakdown.courseMatchD : Breakdown → Bool
  | .error _ => false
  | .ok d => d.course_match

/-- `details.get("recommendation_reason", "")`. -/
def Breakdown.recommendationD : Breakdown → String
  | .error _ => ""
  | .ok d => d.recommendation_reason

/-- `schemas.job.MatchingResult`, the record built per retained job. -/
structure MatchingResult where
  job_id : Nat
  job_title : String
  company_name : String
  match_score : ℚ
  match_percentage : ℚ
  location : Option String
  work_type : Option String
  salary_range : Option String
  matched_subjects : List SubjectInfo
  missing_subjects : List SubjectInfo
  gpa_match : Bool
  semester_match : Bool
  course_match : Bool
  recommendation_reason : String
deriving DecidableEq, Repr

/-- The `job.company` relationship lookup. -/
def lookupCompany (db : DB) (company_id : Nat) : Option Company :=
  db.companies.find? (fun c => c.id == company_id)

/-- Construction of one `MatchingResult` (lines 221-238). -/
def mkMatchingResult (db : DB) (job : Job) (score : ℚ) (details : Breakdown) :
    MatchingResult :=
  { job_id := job.id
    job_title := job.title
    company_name :=
      match lookupCompany db job.company_id with
      | some c => c.company_name
      | none => "N/A"
    match_score := details.rawScoreD
    match_percentage := score
    location := job.location
    work_type := job.work_type
    salary_range := job.salary_range
    matched_subjects := details.matchedD
    missing_subjects := details.missingD
    gpa_match := details.gpaMatchD
    semester_match := details.semesterMatchD
    course_match := details.courseMatchD
    recommendation_reason := details.recommendationD }

/-- `self.db.query(Job).filter(Job.status == JobStatus.OPEN).all()`. -/
def openJobs (db : DB) : List Job :=
  db.jobs.filter (fun j => j.status == JobStatus.OPEN)

/-- The scan loop of `find_matches_for_student` (lines 217-239), threading the
accumulated `matches` list; `none` models an uncaught exception from
`calculate_match_score` aborting the whole call. -/
def scoreJobsLoop (db : DB) (student_id : Nat) (min_score : ℚ) (now : String) :
    List Job → List MatchingResult → Option (List MatchingResult)
  | [], results => some results
  | job :: rest, results =>
    match calculate_match_score db student_id job.id false now with
    | none => none
    | some (score, details) =>
      scoreJobsLoop db student_id min_score now rest
        (if min_score ≤ score then results ++ [mkMatchingResult db job score details]
         else results)

/-- The comparison of `matches.sort(key=lambda x: x.match_percentage, reverse=True)`:
a stable sort placing higher percentages first. -/
def matchLE (a b : MatchingResult) : Bool :=
  decide (b.match_percentage ≤ a.match_percentage)

/-- `MatchingService.find_matches_for_student` (lines 199-244). -/
def find_matches_for_student (db : DB) (student_id : Nat) (min_score : ℚ)
    (limit : Nat) (now : String) : Option (List MatchingResult) :=
  (scoreJobsLoop db student_id min_score now (openJobs db) []).map
    (fun results => (results.mergeSort matchLE).take limit)

/-- The `student.user` relationship lookup. -/
def lookupUser (db : DB) (user_id : Nat) : Option User :=
  db.users.find? (fun u => u.id == user_id)

/-- `Student.user.has(is_active=True)` under the inner join on `Student.user`. -/
def isActiveStudent (db : DB) (s : Student) : Bool :=
  match lookupUser db s.user_id with
  | some u => u.is_active
  | none => false

/-- `self.db.query(Student).join(Student.user).filter(Student.user.has(is_active=True)).all()`. -/
def activeStudents (db : DB) : List Student :=
  db.students.filter (isActiveStudent db)

/-- The candidate dictionary built per retained student (lines 268-280). -/
structure CandidateResult where
  student_id : Nat
  student_name : String
  registration_number : String
  course : String
  semester : Int
  gpa : ℚ
  match_score : ℚ
  match_percentage : ℚ
  matched_subjects : List SubjectInfo
  missing_subjects : List SubjectInfo
  email : Option String
deriving DecidableEq, Repr

/-- Construction of one candidate dictionary (lines 268-280). -/
def mkCandidateResult (db : DB) (student : Student) (score : ℚ) (details : Breakdown) :
    CandidateResult :=
  { student_id := student.id
    student_name := student.full_name
    registration_number := student.registration_number
    course := student.course
    semester := student.semester
    gpa := student.gpa
    match_score := details.rawScoreD
    match_percentage := score
    matched_subjects := details.matchedD
    missing_subjects := details.missingD
    email := (lookupUser db student.user_id).map (fun u => u.email) }

/-- The scan loop of `find_candidates_for_job` (lines 264-280). -/
def scoreStudentsLoop (db : DB) (job_id : Nat) (min_score : ℚ) (now : String) :
    List Student → List CandidateResult → Option (List CandidateResult)
  | [], candidates => some candidates
  | student :: rest, candidates =>
    match calculate_match_score db student.id job_id false now with
    | none => none
    | some (score, details) =>
      scoreStudentsLoop db job_id min_score now rest
        (if min_score ≤ score then candidates ++ [mkCandidateResult db student score details]
         else candidates)

/-- The comparison of `candidates.sort(key=lambda x: x["match_percentage"], reverse=True)`. -/
def candidateLE (a b : CandidateResult) : Bool :=
  decide (b.match_percentage ≤ a.match_percentage)

/-- `MatchingService.find_candidates_for_job` (lines 246-285). -/
def find_candidates_for_job (db : DB) (job_id : Nat) (min_score : ℚ)
    (limit : Nat) (now : String) : Option (List CandidateResult) :=
  (scoreStudentsLoop db job_id min_score now (activeStudents db) []).map
    (fun candidates => (candidates.mergeSort candidateLE).take limit)

/-- Whether a requirement is met: the candidate's grade for the subject exists
and is at least the requirement's minimum (the condition of line 141). -/
def reqMet (db : DB) (student_id : Nat) (req : JobRequirement) : Bool :=
  match lookupGrade db student_id req.subject_id with
  | some g => decide (req.minimum_grade ≤ g.grade)
  | none => false

/-- The points one requirement contributes to the subject criterion:
`55 * (weight / total weight) * (grade / 10)` when met, `0` otherwise. -/
def awardOf (db : DB) (student_id : Nat) (total_requirement_weight : ℚ)
    (req : JobRequirement) : ℚ :=
  match lookupGrade db student_id req.subject_id with
  | some g =>
    if req.minimum_grade ≤ g.grade then
      subject_weight * (req.weight / total_requirement_weight) * (g.grade / 10)
    else 0
  | none => 0

/-- The `subject_info` entry the loop records for one requirement. -/
def infoOf (db : DB) (student_id : Nat) (req : JobRequirement) : SubjectInfo :=
  let grade? := lookupGrade db student_id req.subject_id
  let subject? := lookupSubject db req.subject_id
  let base : SubjectInfo :=
    { subject_id := req.subject_id
      subject_code := subject?.map (fun s => s.code)
      subject_name := subject?.map (fun s => s.name)
      required_grade := req.minimum_grade
      weight := req.weight
      is_mandatory := req.is_mandatory
      student_grade := grade?.map (fun g => g.grade)
      met := false
      grade_excess := none }
  match grade? with
  | some g =>
    if req.minimum_grade ≤ g.grade then
      { base with met := true, grade_excess := some (g.grade - req.minimum_grade) }
    else base
  | none => base

/-- Strips the wall-clock timestamp from a breakdown, for comparing the
clock-independent content of two calculations. -/
def Breakdown.eraseTime : Breakdown → Breakdown
  | .error m => .error m
  | .ok d => .ok { d with calculated_at := "" }

/-! ### Concrete database snapshots used by the witnesses and counterexamples -/

/-- One active student (GPA 8, semester 4, course CS) and one open job with no
constraints at all. -/
def exDbA : DB :=
  { users := [{ id := 1, email := "ana@example.com", is_active := true }]
    students := [{ id := 1, user_id := 1, full_name := "Ana", registration_number := "R1",
                   course := "CS", semester := 4, gpa := 8 }]
    subjects := []
    grades := []
    companies := [{ id := 1, company_name := "Acme" }]
    jobs := [{ id := 1, company_id := 1, title := "Dev", location := none, work_type := none,
               salary_range := none, minimum_gpa := 0, minimum_semester := none,
               preferred_courses := none, status := JobStatus.OPEN }]
    job_requirements := [] }

/-- The spec's worked example: a job requiring subject A (id 1, minimum grade
7, weight 2) and subject B (id 2, minimum grade 6, weight 1); the student has
grade 8 in A and no grade in B. -/
def exDb2 : DB :=
  { users := [{ id := 1, email := "ana@example.com", is_active := true }]
    students := [{ id := 1, user_id := 1, full_name := "Ana", registration_number := "R1",
                   course := "CS", semester := 4, gpa := 8 }]
    subjects := [{ id := 1, code := "A", name := "Subject A" },
                 { id := 2, code := "B", name := "Subject B" }]
    grades := [{ student_id := 1, subject_id := 1, grade := 8 }]
    companies := [{ id := 1, company_name := "Acme" }]
    jobs := [{ id := 1, company_id := 1, title := "Dev", location := none, work_type := none,
               salary_range := none, minimum_gpa := 0, minimum_semester := none,
               preferred_courses := none, status := JobStatus.OPEN }]
    job_requirements :=
      [{ job_id := 1, subject_id := 1, minimum_grade := 7, weight := 2, is_mandatory := false },
       { job_id := 1, subject_id := 2, minimum_grade := 6, weight := 1, is_mandatory := false }] }

/-- The requirement list of `exDb2`'s job. -/
def reqsEx2 : List JobRequirement :=
  [{ job_id := 1, subject_id := 1, minimum_grade := 7, weight := 2, is_mandatory := false },
   { job_id := 1, subject_id := 2, minimum_grade := 6, weight := 1, is_mandatory := false }]

/-- A student who fails the GPA criterion (5 < 7) and the course criterion
(course CS, preferred list [Math]) facing a job with no semester minimum and
no requirements: the semester criterion passes trivially. -/
def exDb9 : DB :=
  { users := [{ id := 1, email := "ana@example.com", is_active := true }]
    students := [{ id := 1, user_id := 1, full_name := "Ana", registration_number := "R1",
                   course := "CS", semester := 3, gpa := 5 }]
    subjects := []
    grades := []
    companies := [{ id := 1, company_name := "Acme" }]
    jobs := [{ id := 1, company_id := 1, title := "Dev", location := none, work_type := none,
               salary_range := none, minimum_gpa := 7, minimum_semester := none,
               preferred_courses := some ["Math"], status := JobStatus.OPEN }]
    job_requirements := [] }

/-- No students and no users at all, but one open job: every student id and
every pairing with student ids is unresolvable here. -/
def exDb7 : DB :=
  { users := []
    students := []
    subjects := []
    grades := []
    companies := [{ id := 1, company_name := "Acme" }]
    jobs := [{ id := 1, company_id := 1, title := "Dev", location := none, work_type := none,
               salary_range := none, minimum_gpa := 0, minimum_semester := none,
               preferred_courses := none, status := JobStatus.OPEN }]
    job_requirements := [] }

lemma subjectLoop_run (db : DB) (student_id : Nat) (W : ℚ) (hW : W ≠ 0) :
    ∀ (reqs : List JobRequirement) (st : SubjState),
      subjectLoop db student_id W st reqs = some
        { score := st.score + (reqs.map (awardOf db student_id W)).sum
          matched := st.matched ++ (reqs.filter (reqMet db student_id)).map (infoOf db student_id)
          missing := st.missing ++
            (reqs.filter (fun r => !reqMet db student_id r)).map (infoOf db student_id)
          mandatoryMissing := st.mandatoryMissing ++
            (((reqs.filter (fun r => !reqMet db student_id r)).filter
              (fun r => r.is_mandatory)).map (infoOf db student_id)) } := by
  intro reqs
  induction reqs with
  | nil =>
    intro st
    simp [subjectLoop]
  | cons req rest ih =>
    intro st
    rw [subjectLoop]
    rcases hg : lookupGrade db student_id req.subject_id with _ | g
    · have hmet : reqMet db student_id req = false := by simp [reqMet, hg]
      simp only [processRequirement, hg]
      rw [ih]
      simp [Option.some.injEq, SubjState.mk.injEq, awardOf, infoOf, hg, hmet,
        List.filter_cons, List.append_assoc]
      split <;> simp [infoOf, hg, List.append_assoc]
    · have hmet : reqMet db student_id req = decide (req.minimum_grade ≤ g.grade) := by
        simp [reqMet, hg]
      by_cases hge : req.minimum_grade ≤ g.grade
      · simp only [processRequirement, hg, hge, if_true, hW, ite_false, ite_true, eq_self_iff_true, not_true, if_neg, if_pos]
        rw [ih]
        simp [Option.some.injEq, SubjState.mk.injEq, awardOf, infoOf, hg, hge, hmet,
          List.filter_cons, List.append_assoc, add_assoc]
      · simp only [processRequirement, hg, hge, ite_false, ite_true]
        rw [ih]
        simp [Option.some.injEq, SubjState.mk.injEq, awardOf, infoOf, hg, hge, hmet,
          List.filter_cons, List.append_assoc]
        split <;> simp [infoOf, hg, hge, List.append_assoc]



/-- The single `MatchingResult` produced for `exDbA`'s student against its
unconstrained open job. -/
def exMatchA : MatchingResult :=
  { job_id := 1, job_title := "Dev", company_name := "Acme", match_score := 100,
    match_percentage := 100, location := none, work_type := none, salary_range := none,
    matched_subjects := [], missing_subjects := [], gpa_match := true,
    semester_match := true, course_match := true,
    recommendation_reason := "GPA (8.0) meets requirement; Course matches preferred courses" }

/-- The single candidate dictionary produced for `exDbA`'s job. -/
def exCandA : CandidateResult :=
  { student_id := 1, student_name := "Ana", registration_number := "R1", course := "CS",
    semester := 4, gpa := 8, match_score := 100, match_percentage := 100,
    matched_subjects := [], missing_subjects := [], email := some "ana@example.com" }

lemma subjectLoop_count (db : DB) (student_id : Nat) (W : ℚ) :
    ∀ (reqs : List JobRequirement) (st st' : SubjState),
      subjectLoop db student_id W st reqs = some st' →
      st'.matched.length + st'.missing.length =
        st.matched.length + st.missing.length + reqs.length := by
  intro reqs
  induction reqs with
  | nil =>
    intro st st' h
    simp [subjectLoop] at h
    subst h
    simp
  | cons req rest ih =>
    intro st st' h
    rw [subjectLoop] at h
    rcases hp : processRequirement db student_id W st req with _ | st2 <;> rw [hp] at h
    · simp at h
    · have hcount := ih st2 st' h
      rw [hcount]
      have hstep : st2.matched.length + st2.missing.length =
          st.matched.length + st.missing.length + 1 := by
        simp only [processRequirement] at hp
        rcases hg : lookupGrade db student_id req.subject_id with _ | g <;>
          rw [hg] at hp <;> simp at hp
        · rw [← hp]
          simp
          omega
        · split at hp
          · split at hp
            · simp at hp
            · simp at hp
              rw [← hp]
              simp
              omega
          · simp at hp
            rw [← hp]
            simp
            omega
      simp only [List.length_cons]
      omega

lemma subjectLoop_isSome (db : DB) (student_id : Nat) (W : ℚ) (hW : W ≠ 0)
    (reqs : List JobRequirement) (st : SubjState) :
    (subjectLoop db student_id W st reqs).isSome := by
  rw [subjectLoop_run db student_id W hW reqs st]
  rfl



lemma lookupGrade_mem {db : DB} {student_id subject_id : Nat} {g : Grade}
    (h : lookupGrade db student_id subject_id = some g) : g ∈ db.grades :=
  List.mem_of_find?_eq_some h

lemma awardOf_nonneg (db : DB) (student_id : Nat) (W : ℚ) (hW : 0 < W)
    (req : JobRequirement) (hw : 0 ≤ req.weight)
    (hgr : ∀ g ∈ db.grades, 0 ≤ g.grade ∧ g.grade ≤ 10) :
    0 ≤ awardOf db student_id W req := by
  rcases hg : lookupGrade db student_id req.subject_id with _ | g
  · simp [awardOf, hg]
  · obtain ⟨h0, h10⟩ := hgr g (lookupGrade_mem hg)
    simp only [awardOf, hg]
    split
    · have h1 : (0:ℚ) ≤ subject_weight := by norm_num [subject_weight]
      have h2 : (0:ℚ) ≤ req.weight / W := div_nonneg hw hW.le
      have h3 : (0:ℚ) ≤ g.grade / 10 := by positivity
      exact mul_nonneg (mul_nonneg h1 h2) h3
    · exact le_refl 0

lemma awardOf_le (db : DB) (student_id : Nat) (W : ℚ) (hW : 0 < W)
    (req : JobRequirement) (hw : 0 ≤ req.weight)
    (hgr : ∀ g ∈ db.grades, 0 ≤ g.grade ∧ g.grade ≤ 10) :
    awardOf db student_id W req ≤ subject_weight * req.weight / W := by
  have hbase : (0:ℚ) ≤ subject_weight * req.weight / W := by
    have : (0:ℚ) ≤ subject_weight := by norm_num [subject_weight]
    positivity
  rcases hg : lookupGrade db student_id req.subject_id with _ | g
  · simpa [awardOf, hg] using hbase
  · obtain ⟨h0, h10⟩ := hgr g (lookupGrade_mem hg)
    simp only [awardOf, hg]
    split
    · have hle : g.grade / 10 ≤ 1 := by linarith
      have hnn : (0:ℚ) ≤ subject_weight * (req.weight / W) := by
        have : (0:ℚ) ≤ subject_weight := by norm_num [subject_weight]
        have := div_nonneg hw hW.le
        positivity
      calc subject_weight * (req.weight / W) * (g.grade / 10)
          ≤ subject_weight * (req.weight / W) * 1 := by
            exact mul_le_mul_of_nonneg_left hle hnn
        _ = subject_weight * req.weight / W := by ring
    · exact hbase

lemma totalRequirementWeight_pos (reqs : List JobRequirement) (hne : reqs ≠ [])
    (hw : ∀ r ∈ reqs, 0 < r.weight) : 0 < totalRequirementWeight reqs := by
  unfold totalRequirementWeight
  apply List.sum_pos
  · intro x hx
    obtain ⟨r, hr, rfl⟩ := List.mem_map.1 hx
    exact hw r hr
  · simpa using hne

lemma sum_award_nonneg (db : DB) (student_id : Nat) (reqs : List JobRequirement)
    (W : ℚ) (hW : 0 < W) (hw : ∀ r ∈ reqs, 0 ≤ r.weight)
    (hgr : ∀ g ∈ db.grades, 0 ≤ g.grade ∧ g.grade ≤ 10) :
    0 ≤ (reqs.map (awardOf db student_id W)).sum := by
  apply List.sum_nonneg
  intro x hx
  obtain ⟨r, hr, rfl⟩ := List.mem_map.1 hx
  exact awardOf_nonneg db student_id W hW r (hw r hr) hgr

lemma sum_award_le (db : DB) (student_id : Nat) (reqs : List JobRequirement)
    (hw : ∀ r ∈ reqs, 0 < r.weight)
    (hgr : ∀ g ∈ db.grades, 0 ≤ g.grade ∧ g.grade ≤ 10)
    (hW : 0 < totalRequirementWeight reqs) :
    (reqs.map (awardOf db student_id (totalRequirementWeight reqs))).sum ≤ subject_weight := by
  set W := totalRequirementWeight reqs with hWdef
  have h1 : (reqs.map (awardOf db student_id W)).sum ≤
      (reqs.map (fun r => subject_weight / W * r.weight)).sum := by
    apply List.sum_le_sum
    intro r hr
    have := awardOf_le db student_id W hW r (hw r hr).le hgr
    calc awardOf db student_id W r ≤ subject_weight * r.weight / W := this
      _ = subject_weight / W * r.weight := by ring
  have h2 : (reqs.map (fun r => subject_weight / W * r.weight)).sum =
      subject_weight / W * (reqs.map (fun r => r.weight)).sum := by
    rw [← List.sum_map_mul_left]
  rw [h2] at h1
  have h3 : (reqs.map (fun r => r.weight)).sum = W := rfl
  rw [h3] at h1
  calc (reqs.map (awardOf db student_id W)).sum ≤ subject_weight / W * W := h1
    _ = subject_weight := div_mul_cancel₀ subject_weight hW.ne'

lemma gpaCriterion_bounds (gpa minimum_gpa : ℚ) (hmg10 : minimum_gpa ≤ 10)
    (res : ℚ × Bool × Option ℚ) (h : gpaCriterion gpa minimum_gpa = some res) :
    0 ≤ res.1 ∧ res.1 ≤ 25 := by
  unfold gpaCriterion at h
  split at h
  · split at h
    · split at h
      · simp at h
      · simp only [Option.some.injEq] at h
        subst h
        have hd0 : (10:ℚ) - minimum_gpa ≠ 0 := by assumption
        have hd : (0:ℚ) < 10 - minimum_gpa := by
          rcases lt_or_eq_of_le (sub_nonneg.2 hmg10) with h1 | h1
          · exact h1
          · exact absurd h1.symm hd0
        have hge : minimum_gpa ≤ gpa := by assumption
        have hex : (0:ℚ) ≤ (gpa - minimum_gpa) / (10 - minimum_gpa) :=
          div_nonneg (by linarith) hd.le
        constructor
        · have : (0:ℚ) ≤ min ((gpa - minimum_gpa) / (10 - minimum_gpa) * 5) 5 :=
            le_min (by positivity) (by norm_num)
          simp only [gpa_weight]
          linarith
        · have : min ((gpa - minimum_gpa) / (10 - minimum_gpa) * 5) 5 ≤ 5 := min_le_right _ _
          simp only [gpa_weight]
          linarith
    · simp only [Option.some.injEq] at h
      subst h
      norm_num [gpa_weight]
  · simp only [Option.some.injEq] at h
    subst h
    norm_num

lemma semesterCriterion_bounds (semester : Int) (minimum_semester : Option Int) :
    0 ≤ (semesterCriterion semester minimum_semester).1 ∧
    (semesterCriterion semester minimum_semester).1 ≤ 10 := by
  unfold semesterCriterion
  rcases minimum_semester with _ | m
  · norm_num [semester_weight]
  · dsimp only
    split
    · norm_num [semester_weight]
    · split <;> norm_num [semester_weight]

lemma courseCriterion_bounds (course : String) (preferred_courses : Option (List String)) :
    0 ≤ (courseCriterion course preferred_courses).1 ∧
    (courseCriterion course preferred_courses).1 ≤ 15 := by
  unfold courseCriterion
  rcases preferred_courses with _ | cs
  · norm_num [course_weight]
  · dsimp only
    split <;> norm_num [course_weight]



lemma calculateDetails_score_bounds (db : DB) (student_id job_id : Nat)
    (student : Student) (job : Job)
    (hs : lookupStudent db student_id = some student)
    (hj : lookupJob db job_id = some job)
    (hgr : ∀ g ∈ db.grades, 0 ≤ g.grade ∧ g.grade ≤ 10)
    (hw : ∀ r ∈ db.job_requirements, 0 < r.weight)
    (hmg10 : job.minimum_gpa ≤ 10)
    (p : ℚ) (b : Breakdown)
    (h : calculateDetails db student_id job_id = some (p, b)) :
    0 ≤ p ∧ p ≤ 105 := by
  rw [calculateDetails, hs, hj] at h
  dsimp only at h
  rcases hgp : gpaCriterion student.gpa job.minimum_gpa with _ | gpaRes
  · rw [hgp] at h
    simp at h
  · rw [hgp] at h
    simp only [Option.some_bind] at h
    obtain ⟨hg0, hg25⟩ := gpaCriterion_bounds student.gpa job.minimum_gpa hmg10 gpaRes hgp
    obtain ⟨hs0, hs10⟩ := semesterCriterion_bounds student.semester job.minimum_semester
    obtain ⟨hc0, hc15⟩ := courseCriterion_bounds student.course job.preferred_courses
    have key : ∀ subj : ℚ, 0 ≤ subj → subj ≤ subject_weight →
        0 ≤ (if 0 < gpa_weight + semester_weight + course_weight + subject_weight then
            (gpaRes.1 + (semesterCriterion student.semester job.minimum_semester).1 +
              (courseCriterion student.course job.preferred_courses).1 + subj) /
            (gpa_weight + semester_weight + course_weight + subject_weight) * 100 else 0) ∧
        (if 0 < gpa_weight + semester_weight + course_weight + subject_weight then
            (gpaRes.1 + (semesterCriterion student.semester job.minimum_semester).1 +
              (courseCriterion student.course job.preferred_courses).1 + subj) /
            (gpa_weight + semester_weight + course_weight + subject_weight) * 100 else 0) ≤ 105 := by
      intro subj h0 h55
      have hsum : gpa_weight + semester_weight + course_weight + subject_weight = (100:ℚ) := by
        norm_num [gpa_weight, semester_weight, course_weight, subject_weight]
      rw [hsum]
      rw [if_pos (by norm_num : (0:ℚ) < 100)]
      rw [div_mul_cancel₀ _ (by norm_num : (100:ℚ) ≠ 0)]
      have h55q : subj ≤ 55 := by
        calc subj ≤ subject_weight := h55
          _ = 55 := by norm_num [subject_weight]
      constructor
      · linarith
      · linarith
    by_cases hreq : jobRequirementsOf db job_id = []
    · simp only [hreq, ite_true, eq_self_iff_true, if_true, Option.map_some',
        Option.some.injEq, Prod.mk.injEq] at h
      obtain ⟨hp, hb⟩ := h
      rw [← hp]
      exact key subject_weight (by norm_num [subject_weight]) le_rfl
    · have hwpos : ∀ r ∈ jobRequirementsOf db job_id, 0 < r.weight := by
        intro r hr
        exact hw r (List.mem_filter.1 hr).1
      have hWpos : 0 < totalRequirementWeight (jobRequirementsOf db job_id) :=
        totalRequirementWeight_pos _ hreq hwpos
      rw [subjectLoop_run db student_id _ hWpos.ne'] at h
      simp only [hreq, ite_false, eq_self_iff_true, if_false, Option.map_some',
        Option.some.injEq, Prod.mk.injEq] at h
      obtain ⟨hp, hb⟩ := h
      rw [← hp]
      have hsub0 : (0:ℚ) ≤ 0 + ((jobRequirementsOf db job_id).map
          (awardOf db student_id (totalRequirementWeight (jobRequirementsOf db job_id)))).sum := by
        rw [zero_add]
        exact sum_award_nonneg db student_id _ _ hWpos (fun r hr => (hwpos r hr).le) hgr
      have hsub55 : 0 + ((jobRequirementsOf db job_id).map
          (awardOf db student_id (totalRequirementWeight (jobRequirementsOf db job_id)))).sum ≤
          subject_weight := by
        rw [zero_add]
        exact sum_award_le db student_id _ hwpos hgr hWpos
      exact key _ hsub0 hsub55


lemma gpaCriterion_isSome (gpa minimum_gpa : ℚ) (h : (10:ℚ) - minimum_gpa ≠ 0) :
    (gpaCriterion gpa minimum_gpa).isSome := by
  unfold gpaCriterion
  by_cases h1 : minimum_gpa ≤ gpa
  · rw [if_pos h1]
    by_cases h2 : 0 < minimum_gpa
    · rw [if_pos h2, if_neg h]
      rfl
    · rw [if_neg h2]
      rfl
  · rw [if_neg h1]
    rfl

lemma calculateDetails_exDbA : calculateDetails exDbA 1 1 = some (100, Breakdown.ok
    { calculated_at := "", student_id := 1, job_id := 1, student_name := "Ana",
      job_title := "Dev", gpa_match := true, gpa_deficit := none, student_gpa := 8,
      required_gpa := 0, semester_match := true, semester_deficit := none,
      student_semester := 4, required_semester := none, course_match := true,
      student_course := "CS", preferred_courses := none, matched_subjects := [],
      missing_subjects := [], mandatory_missing := none, subject_match_percentage := none,
      final_score := 100, raw_score := 100, max_possible_score := 100,
      recommendation_reason := "GPA (8.0) meets requirement; Course matches preferred courses" }) := by
  simp [calculateDetails, lookupStudent, lookupJob, jobRequirementsOf, exDbA,
    gpaCriterion, semesterCriterion, courseCriterion, generate_recommendation,
    fmt1, joinReasons, round2, round_eq,
    gpa_weight, semester_weight, course_weight, subject_weight]
  norm_num
  rfl

lemma calc_exDbA (save_log : Bool) (t : String) :
    calculate_match_score exDbA 1 1 save_log t = some (100, Breakdown.ok
    { calculated_at := t, student_id := 1, job_id := 1, student_name := "Ana",
      job_title := "Dev", gpa_match := true, gpa_deficit := none, student_gpa := 8,
      required_gpa := 0, semester_match := true, semester_deficit := none,
      student_semester := 4, required_semester := none, course_match := true,
      student_course := "CS", preferred_courses := none, matched_subjects := [],
      missing_subjects := [], mandatory_missing := none, subject_match_percentage := none,
      final_score := 100, raw_score := 100, max_possible_score := 100,
      recommendation_reason := "GPA (8.0) meets requirement; Course matches preferred courses" }) := by
  rw [calculate_match_score, calculateDetails_exDbA]
  rfl

/-- C3: for every existing candidate and opportunity with candidate GPA in
[0,10], grades in [0,10], requirement weights positive, and opportunity
minimum GPA in [0,10], the final percentage returned by
`calculate_match_score` is at least 0 and never exceeds 105. -/
theorem C3_final_percentage_bounded (db : DB) (student_id job_id : Nat)
    (save_log : Bool) (now : String) (student : Student) (job : Job)
    (hs : lookupStudent db student_id = some student)
    (hj : lookupJob db job_id = some job)
    (hgpa0 : 0 ≤ student.gpa) (hgpa10 : student.gpa ≤ 10)
    (hgr : ∀ g ∈ db.grades, 0 ≤ g.grade ∧ g.grade ≤ 10)
    (hw : ∀ r ∈ db.job_requirements, 0 < r.weight)
    (hmg0 : 0 ≤ job.minimum_gpa) (hmg10 : job.minimum_gpa ≤ 10)
    (p : ℚ) (b : Breakdown)
    (h : calculate_match_score db student_id job_id save_log now = some (p, b)) :
    0 ≤ p ∧ p ≤ 105 := by
  rw [calculate_match_score] at h
  rcases hC : calculateDetails db student_id job_id with _ | pb
  · rw [hC] at h
    simp at h
  · rw [hC] at h
    simp only [Option.map_some', Option.some.injEq, Prod.ext_iff] at h
    obtain ⟨hp, hb⟩ := h
    rw [← hp]
    exact (calculateDetails_score_bounds db student_id job_id student job hs hj hgr hw
      hmg10 pb.1 pb.2 (by rw [hC])).imp id id

/-- Witness for C3 at a concrete database: the bound holds at the returned
percentage 100. -/
theorem C3_witness : (0:ℚ) ≤ 100 ∧ (100:ℚ) ≤ 105 := by
  refine C3_final_percentage_bounded exDbA 1 1 false "T"
    { id := 1, user_id := 1, full_name := "Ana", registration_number := "R1",
      course := "CS", semester := 4, gpa := 8 }
    { id := 1, company_id := 1, title := "Dev", location := none, work_type := none,
      salary_range := none, minimum_gpa := 0, minimum_semester := none,
      preferred_courses := none, status := JobStatus.OPEN }
    rfl rfl (by norm_num) (by norm_num) (by simp [exDbA]) (by simp [exDbA])
    (by norm_num) (by norm_num) 100 _ (calc_exDbA false "T")

lemma calc_not_found (db : DB) (student_id job_id : Nat)
    (save_log : Bool) (now : String)
    (h : lookupStudent db student_id = none ∨ lookupJob db job_id = none) :
    calculate_match_score db student_id job_id save_log now =
      some (0, Breakdown.error "Student or Job not found") := by
  rw [calculate_match_score, calculateDetails]
  rcases h with h | h
  · rw [h]
    rcases lookupJob db job_id with _ | j <;> simp [Breakdown.withTime]
  · rw [h]
    rcases lookupStudent db student_id with _ | s <;> simp [Breakdown.withTime]

/-- C6: when the candidate or the opportunity does not exist,
`calculate_match_score` returns score 0 with the error marker breakdown and
does not raise. -/
theorem C6_not_found_returns_zero_error (db : DB) (student_id job_id : Nat)
    (save_log : Bool) (now : String)
    (h : lookupStudent db student_id = none ∨ lookupJob db job_id = none) :
    calculate_match_score db student_id job_id save_log now =
      some (0, Breakdown.error "Student or Job not found") :=
  calc_not_found db student_id job_id save_log now h

/-- Witness for C6: a nonexistent student id against an existing job. -/
theorem C6_witness :
    calculate_match_score exDb7 99 1 false "T" =
      some (0, Breakdown.error "Student or Job not found") :=
  C6_not_found_returns_zero_error exDb7 99 1 false "T" (Or.inl rfl)

/-- C10: with an existing pair, minimum GPA in [0,10), and a positive total
requirement weight, the computation is total (no division by zero). -/
theorem C10_totality (db : DB) (student_id job_id : Nat) (save_log : Bool)
    (now : String) (student : Student) (job : Job)
    (hs : lookupStudent db student_id = some student)
    (hj : lookupJob db job_id = some job)
    (hmg0 : 0 ≤ job.minimum_gpa) (hmg10 : job.minimum_gpa < 10)
    (hW : 0 < totalRequirementWeight (jobRequirementsOf db job_id)) :
    (calculate_match_score db student_id job_id save_log now).isSome := by
  rw [calculate_match_score, calculateDetails, hs, hj]
  dsimp only
  rcases hgp : gpaCriterion student.gpa job.minimum_gpa with _ | gpaRes
  · exfalso
    have := gpaCriterion_isSome student.gpa job.minimum_gpa (by linarith)
    rw [hgp] at this
    exact absurd this (by simp)
  · simp only [hgp, Option.some_bind]
    by_cases hreq : jobRequirementsOf db job_id = []
    · simp [hreq]
    · rw [subjectLoop_run db student_id _ hW.ne']
      simp [hreq]

/-- Witness for C10 at a concrete database with requirement weights 2 and 1. -/
theorem C10_witness : (calculate_match_score exDb2 1 1 false "T").isSome := by
  refine C10_totality exDb2 1 1 false "T"
    { id := 1, user_id := 1, full_name := "Ana", registration_number := "R1",
      course := "CS", semester := 4, gpa := 8 }
    { id := 1, company_id := 1, title := "Dev", location := none, work_type := none,
      salary_range := none, minimum_gpa := 0, minimum_semester := none,
      preferred_courses := none, status := JobStatus.OPEN }
    rfl rfl (by norm_num) (by norm_num) ?_
  norm_num [totalRequirementWeight, jobRequirementsOf, exDb2]

/-- C8 (amended): with logging disabled the scores are identical and the
breakdowns are identical except for the `calculated_at` timestamp. -/
theorem C8_breakdown_clock_independent (db : DB) (student_id job_id : Nat)
    (save_log : Bool) (t1 t2 : String) :
    (calculate_match_score db student_id job_id save_log t1).map
        (fun r => (r.1, r.2.eraseTime)) =
      (calculate_match_score db student_id job_id save_log t2).map
        (fun r => (r.1, r.2.eraseTime)) := by
  rw [calculate_match_score, calculate_match_score]
  rcases calculateDetails db student_id job_id with _ | pb
  · rfl
  · rcases pb with ⟨p0, b0⟩
    rcases b0 with m | d <;> rfl

/-- C8 counterexample: the same snapshot scored at two different clock
readings yields breakdowns that are not bit-identical (they differ in the
`calculated_at` field). -/
theorem C8_counterexample :
    calculate_match_score exDbA 1 1 false "2024-01-01T00:00:00" ≠
      calculate_match_score exDbA 1 1 false "2024-01-01T00:00:01" := by
  rw [calc_exDbA false "2024-01-01T00:00:00", calc_exDbA false "2024-01-01T00:00:01"]
  simp

/-- C1: an opportunity with no constraints (minimum GPA 0, no minimum
semester, no preferred-course list, empty requirement list) scores exactly
100.0 for every existing candidate (with nonnegative GPA). -/
theorem C1_no_constraints_scores_100 (db : DB) (student_id job_id : Nat)
    (save_log : Bool) (now : String) (student : Student) (job : Job)
    (hs : lookupStudent db student_id = some student)
    (hj : lookupJob db job_id = some job)
    (hgpa0 : 0 ≤ student.gpa)
    (hmg : job.minimum_gpa = 0)
    (hsem : job.minimum_semester = none)
    (hpref : job.preferred_courses = none)
    (hreq : jobRequirementsOf db job_id = []) :
    ∃ d, calculate_match_score db student_id job_id save_log now =
      some (100, Breakdown.ok d) := by
  rw [calculate_match_score, calculateDetails, hs, hj]
  dsimp only
  have hgp : gpaCriterion student.gpa job.minimum_gpa = some (gpa_weight, true, none) := by
    rw [hmg]
    unfold gpaCriterion
    rw [if_pos hgpa0, if_neg (lt_irrefl 0)]
  rw [hgp, hsem, hpref]
  simp only [Option.some_bind, hreq, ite_true, eq_self_iff_true, if_true,
    Option.map_some', semesterCriterion, courseCriterion]
  norm_num [Breakdown.withTime, gpa_weight, semester_weight, course_weight, subject_weight]

/-- Witness for C1 at a concrete database. -/
theorem C1_witness :
    ∃ d, calculate_match_score exDbA 1 1 false "T" = some (100, Breakdown.ok d) :=
  C1_no_constraints_scores_100 exDbA 1 1 false "T"
    { id := 1, user_id := 1, full_name := "Ana", registration_number := "R1",
      course := "CS", semester := 4, gpa := 8 }
    { id := 1, company_id := 1, title := "Dev", location := none, work_type := none,
      salary_range := none, minimum_gpa := 0, minimum_semester := none,
      preferred_courses := none, status := JobStatus.OPEN }
    rfl rfl (by norm_num) rfl rfl rfl rfl

lemma calculateDetails_exDb9 : calculateDetails exDb9 1 1 = some (65, Breakdown.ok
    { calculated_at := "", student_id := 1, job_id := 1, student_name := "Ana",
      job_title := "Dev", gpa_match := false, gpa_deficit := some 2, student_gpa := 5,
      required_gpa := 7, semester_match := true, semester_deficit := none,
      student_semester := 3, required_semester := none, course_match := false,
      student_course := "CS", preferred_courses := some ["Math"], matched_subjects := [],
      missing_subjects := [], mandatory_missing := none, subject_match_percentage := none,
      final_score := 65, raw_score := 65, max_possible_score := 100,
      recommendation_reason := "General match" }) := by
  simp [calculateDetails, lookupStudent, lookupJob, jobRequirementsOf, exDb9,
    gpaCriterion, semesterCriterion, courseCriterion, generate_recommendation,
    fmt1, joinReasons, round2, round_eq,
    gpa_weight, semester_weight, course_weight, subject_weight]
  norm_num

lemma calc_exDb9 (save_log : Bool) (t : String) :
    calculate_match_score exDb9 1 1 save_log t = some (65, Breakdown.ok
    { calculated_at := t, student_id := 1, job_id := 1, student_name := "Ana",
      job_title := "Dev", gpa_match := false, gpa_deficit := some 2, student_gpa := 5,
      required_gpa := 7, semester_match := true, semester_deficit := none,
      student_semester := 3, required_semester := none, course_match := false,
      student_course := "CS", preferred_courses := some ["Math"], matched_subjects := [],
      missing_subjects := [], mandatory_missing := none, subject_match_percentage := none,
      final_score := 65, raw_score := 65, max_possible_score := 100,
      recommendation_reason := "General match" }) := by
  rw [calculate_match_score, calculateDetails_exDb9]
  rfl

/-- C2: the subject criterion distributes the 55 points weight-proportionally,
awarding each met requirement `55 * (weight / total weight) * (grade / 10)` and
0 to each unmet one; on the spec's worked example the criterion totals
`2/3 * 55 * (8/10)` with subject A matched and subject B missing. -/
theorem C2_subject_criterion :
    (∀ (db : DB) (student_id : Nat) (reqs : List JobRequirement) (st : SubjState),
      totalRequirementWeight reqs ≠ 0 →
      subjectLoop db student_id (totalRequirementWeight reqs) st reqs = some
        { score := st.score + (reqs.map (awardOf db student_id (totalRequirementWeight reqs))).sum
          matched := st.matched ++ (reqs.filter (reqMet db student_id)).map (infoOf db student_id)
          missing := st.missing ++
            (reqs.filter (fun r => !reqMet db student_id r)).map (infoOf db student_id)
          mandatoryMissing := st.mandatoryMissing ++
            (((reqs.filter (fun r => !reqMet db student_id r)).filter
              (fun r => r.is_mandatory)).map (infoOf db student_id)) }) ∧
    (subjectLoop exDb2 1 (totalRequirementWeight (jobRequirementsOf exDb2 1)) ⟨0, [], [], []⟩
        (jobRequirementsOf exDb2 1)).map SubjState.score =
      some (2 / 3 * subject_weight * (8 / 10)) ∧
    (calculate_match_score exDb2 1 1 false "T").map
        (fun r => ((r.2.matchedD).map (fun i => i.subject_id),
                   (r.2.missingD).map (fun i => i.subject_id))) =
      some ([1], [2]) := by
  refine ⟨fun db student_id reqs st hW => subjectLoop_run db student_id _ hW reqs st, ?_, ?_⟩
  · simp [subjectLoop, processRequirement, lookupGrade, lookupSubject, jobRequirementsOf,
      totalRequirementWeight, exDb2, subject_weight]
    norm_num
  · simp [calculate_match_score, calculateDetails, lookupStudent, lookupJob,
      jobRequirementsOf, totalRequirementWeight, exDb2, gpaCriterion, semesterCriterion,
      courseCriterion, subjectLoop, processRequirement, lookupGrade, lookupSubject,
      Breakdown.withTime, Breakdown.matchedD, Breakdown.missingD,
      gpa_weight, semester_weight, course_weight, subject_weight]
    norm_num

/-- Witness for C2: the general characterization applied to the worked
example's requirement list. -/
theorem C2_witness :
    subjectLoop exDb2 1 (totalRequirementWeight reqsEx2) ⟨0, [], [], []⟩ reqsEx2 = some
      { score := 0 + (reqsEx2.map (awardOf exDb2 1 (totalRequirementWeight reqsEx2))).sum
        matched := [] ++ (reqsEx2.filter (reqMet exDb2 1)).map (infoOf exDb2 1)
        missing := [] ++ (reqsEx2.filter (fun r => !reqMet exDb2 1 r)).map (infoOf exDb2 1)
        mandatoryMissing := [] ++ (((reqsEx2.filter (fun r => !reqMet exDb2 1 r)).filter
          (fun r => r.is_mandatory)).map (infoOf exDb2 1)) } :=
  C2_subject_criterion.1 exDb2 1 reqsEx2 ⟨0, [], [], []⟩
    (by norm_num [totalRequirementWeight, reqsEx2])



lemma joinReasons_cons (r : String) (rs : List String) :
    ∃ t, joinReasons (r :: rs) = r ++ t := by
  cases rs with
  | nil => exact ⟨"", (String.append_empty r).symm⟩
  | cons a as => exact ⟨"; " ++ joinReasons (a :: as), by
      show joinReasons (r :: a :: as) = r ++ ("; " ++ joinReasons (a :: as))
      rw [← String.append_assoc]
      rfl⟩

lemma gpa_reason_ne_general (u : String) : "GPA (" ++ u ≠ "General match" := by
  intro he
  have h := congrArg String.data he
  rw [String.data_append] at h
  rw [show ("GPA (").data = ['G','P','A',' ','('] from by decide] at h
  rw [show ("General match").data =
    ['G','e','n','e','r','a','l',' ','m','a','t','c','h'] from by decide] at h
  simp at h

lemma course_reason_ne_general (u : String) :
    "Course matches preferred courses" ++ u ≠ "General match" := by
  intro he
  have h := congrArg String.data he
  rw [String.data_append] at h
  rw [show ("Course matches preferred courses").data =
    'C' :: ("ourse matches preferred courses").data from by decide] at h
  rw [show ("General match").data =
    ['G','e','n','e','r','a','l',' ','m','a','t','c','h'] from by decide] at h
  simp at h

lemma slash_ne_general (s : String) (h : '/' ∈ s.data) : s ≠ "General match" := by
  intro he
  rw [he] at h
  exact absurd h (by decide)

lemma joinReasons_singleton (r : String) : joinReasons [r] = r := rfl

lemma joinReasons_gpa_ne (q : ℚ) (l : List String) :
    joinReasons (("GPA (" ++ fmt1 q ++ ") meets requirement") :: l) ≠ "General match" := by
  obtain ⟨t, ht⟩ := joinReasons_cons ("GPA (" ++ fmt1 q ++ ") meets requirement") l
  rw [ht, String.append_assoc, String.append_assoc]
  exact gpa_reason_ne_general _

lemma joinReasons_course_ne (l : List String) :
    joinReasons ("Course matches preferred courses" :: l) ≠ "General match" := by
  obtain ⟨t, ht⟩ := joinReasons_cons "Course matches preferred courses" l
  rw [ht]
  exact course_reason_ne_general _

lemma generate_recommendation_eq_general (g : Bool) (q : ℚ) (c : Bool)
    (ms ml : List SubjectInfo) :
    (generate_recommendation g q c ms ml = "General match") ↔
      (g = false ∧ c = false ∧ ms.length + ml.length = 0) := by
  unfold generate_recommendation
  cases g with
  | true =>
    simp only [ite_true, if_true]
    constructor
    · intro h
      rw [if_neg (by simp)] at h
      simp only [List.append_assoc, List.singleton_append] at h
      exact absurd h (joinReasons_gpa_ne q _)
    · rintro ⟨h, -⟩
      exact absurd h (by simp)
  | false =>
    cases c with
    | true =>
      simp only [ite_true, if_true, Bool.false_eq_true, ite_false, if_false,
        List.nil_append]
      constructor
      · intro h
        rw [if_neg (by simp)] at h
        simp only [List.append_assoc, List.singleton_append] at h
        exact absurd h (joinReasons_course_ne _)
      · rintro ⟨-, h, -⟩
        exact absurd h (by simp)
    | false =>
      simp only [Bool.false_eq_true, ite_false, if_false, List.nil_append]
      by_cases hn : 0 < ms.length + ml.length
      · rw [if_pos hn]
        constructor
        · intro h
          rw [if_neg (by simp)] at h
          rw [joinReasons_singleton] at h
          refine absurd h (slash_ne_general _ ?_)
          simp [String.data_append, List.mem_append]
        · rintro ⟨-, -, h⟩
          omega
      · rw [if_neg hn]
        simp only [ite_true, if_true, eq_self_iff_true, true_iff, and_true, true_and]
        omega



/-- C9 (amended): the recommendation rationale is the literal "General match"
exactly when the GPA criterion failed, the course criterion failed, and the
opportunity has no subject requirements; the semester criterion and the number
of met requirements play no role in the fallback condition. -/
theorem C9_recommendation_fallback (db : DB) (student_id job_id : Nat)
    (save_log : Bool) (now : String) (p : ℚ) (d : Details)
    (h : calculate_match_score db student_id job_id save_log now =
      some (p, Breakdown.ok d)) :
    (d.recommendation_reason = "General match" ↔
      d.gpa_match = false ∧ d.course_match = false ∧
        jobRequirementsOf db job_id = []) := by
  rw [calculate_match_score] at h
  rcases hs : lookupStudent db student_id with _ | student
  · rw [calculateDetails, hs] at h
    rcases lookupJob db job_id with _ | j <;> simp [Breakdown.withTime] at h
  rcases hj : lookupJob db job_id with _ | job
  · rw [calculateDetails, hs, hj] at h
    simp [Breakdown.withTime] at h
  rw [calculateDetails, hs, hj] at h
  dsimp only at h
  rcases hgp : gpaCriterion student.gpa job.minimum_gpa with _ | gpaRes
  · rw [hgp] at h
    simp at h
  rw [hgp] at h
  simp only [Option.some_bind] at h
  by_cases hreq : jobRequirementsOf db job_id = []
  · simp only [hreq, ite_true, eq_self_iff_true, if_true, Option.map_some',
      Option.some.injEq, Prod.mk.injEq, Breakdown.withTime, Breakdown.ok.injEq] at h
    obtain ⟨hp, hb⟩ := h
    rw [← hb]
    dsimp only
    rw [generate_recommendation_eq_general]
    simp [hreq]
  · rcases hloop : subjectLoop db student_id
        (totalRequirementWeight (jobRequirementsOf db job_id))
        ⟨0, [], [], []⟩ (jobRequirementsOf db job_id) with _ | st
    · rw [hloop] at h
      simp [hreq] at h
    · rw [hloop] at h
      have hcount := subjectLoop_count db student_id
        (totalRequirementWeight (jobRequirementsOf db job_id))
        (jobRequirementsOf db job_id) ⟨0, [], [], []⟩ st hloop
      simp only [hreq, ite_false, eq_self_iff_true, if_false, Option.map_some',
        Option.some.injEq, Prod.mk.injEq, Breakdown.withTime, Breakdown.ok.injEq] at h
      obtain ⟨hp, hb⟩ := h
      rw [← hb]
      dsimp only
      rw [generate_recommendation_eq_general]
      have hlen : st.matched.length + st.missing.length =
          (jobRequirementsOf db job_id).length := by
        simpa using hcount
      rw [hlen]
      have hne : (jobRequirementsOf db job_id).length ≠ 0 := by
        intro h0
        exact hreq (List.length_eq_zero.1 h0)
      simp [hreq, hne]

/-- C9 counterexample: a pairing where the semester criterion passes (a
criterion passed) yet the rationale is the fallback "General match", refuting
the claim that the fallback appears exactly when no criterion passed. -/
theorem C9_counterexample :
    (calculate_match_score exDb9 1 1 false "T").map
        (fun r => (r.2.semesterMatchD, r.2.recommendationD)) =
      some (true, "General match") := by
  rw [calc_exDb9]
  rfl

/-- Witness for the amended C9 at a concrete database. -/
theorem C9_witness :
    (Details.recommendation_reason
      { calculated_at := "T", student_id := 1, job_id := 1, student_name := "Ana",
        job_title := "Dev", gpa_match := false, gpa_deficit := some 2, student_gpa := 5,
        required_gpa := 7, semester_match := true, semester_deficit := none,
        student_semester := 3, required_semester := none, course_match := false,
        student_course := "CS", preferred_courses := some ["Math"], matched_subjects := [],
        missing_subjects := [], mandatory_missing := none,
        subject_match_percentage := none, final_score := 65, raw_score := 65,
        max_possible_score := 100, recommendation_reason := "General match" } =
      "General match" ↔
      Details.gpa_match
        { calculated_at := "T", student_id := 1, job_id := 1, student_name := "Ana",
          job_title := "Dev", gpa_match := false, gpa_deficit := some 2, student_gpa := 5,
          required_gpa := 7, semester_match := true, semester_deficit := none,
          student_semester := 3, required_semester := none, course_match := false,
          student_course := "CS", preferred_courses := some ["Math"],
          matched_subjects := [], missing_subjects := [], mandatory_missing := none,
          subject_match_percentage := none, final_score := 65, raw_score := 65,
          max_possible_score := 100, recommendation_reason := "General match" } = false ∧
      Details.course_match
        { calculated_at := "T", student_id := 1, job_id := 1, student_name := "Ana",
          job_title := "Dev", gpa_match := false, gpa_deficit := some 2, student_gpa := 5,
          required_gpa := 7, semester_match := true, semester_deficit := none,
          student_semester := 3, required_semester := none, course_match := false,
          student_course := "CS", preferred_courses := some ["Math"],
          matched_subjects := [], missing_subjects := [], mandatory_missing := none,
          subject_match_percentage := none, final_score := 65, raw_score := 65,
          max_possible_score := 100, recommendation_reason := "General match" } = false ∧
      jobRequirementsOf exDb9 1 = []) :=
  C9_recommendation_fallback exDb9 1 1 false "T" 65 _ (calc_exDb9 false "T")

lemma matchLE_trans : ∀ a b c : MatchingResult,
    matchLE a b = true → matchLE b c = true → matchLE a c = true := by
  intro a b c hab hbc
  simp only [matchLE, decide_eq_true_eq] at *
  exact le_trans hbc hab

lemma matchLE_total : ∀ a b : MatchingResult, (matchLE a b || matchLE b a) = true := by
  intro a b
  simp only [matchLE, Bool.or_eq_true, decide_eq_true_eq]
  exact le_total b.match_percentage a.match_percentage

lemma candidateLE_trans : ∀ a b c : CandidateResult,
    candidateLE a b = true → candidateLE b c = true → candidateLE a c = true := by
  intro a b c hab hbc
  simp only [candidateLE, decide_eq_true_eq] at *
  exact le_trans hbc hab

lemma candidateLE_total : ∀ a b : CandidateResult,
    (candidateLE a b || candidateLE b a) = true := by
  intro a b
  simp only [candidateLE, Bool.or_eq_true, decide_eq_true_eq]
  exact le_total b.match_percentage a.match_percentage

lemma scoreJobsLoop_mem (db : DB) (student_id : Nat) (min_score : ℚ) (now : String) :
    ∀ (jobs : List Job) (acc res : List MatchingResult),
      scoreJobsLoop db student_id min_score now jobs acc = some res →
      ∀ m ∈ res, m ∈ acc ∨ ∃ job ∈ jobs, ∃ s d,
        calculate_match_score db student_id job.id false now = some (s, d) ∧
        min_score ≤ s ∧ m = mkMatchingResult db job s d := by
  intro jobs
  induction jobs with
  | nil =>
    intro acc res h m hm
    simp [scoreJobsLoop] at h
    subst h
    exact Or.inl hm
  | cons job rest ih =>
    intro acc res h m hm
    rw [scoreJobsLoop] at h
    rcases hc : calculate_match_score db student_id job.id false now with _ | sd
    · rw [hc] at h
      simp at h
    · rcases sd with ⟨s, d⟩
      rw [hc] at h
      dsimp only at h
      by_cases hsc : min_score ≤ s
      · rw [if_pos hsc] at h
        rcases ih _ _ h m hm with hacc | ⟨j2, hj2, s2, d2, hcalc, hle, hm2⟩
        · rcases List.mem_append.1 hacc with h1 | h1
          · exact Or.inl h1
          · right
            exact ⟨job, List.mem_cons_self job rest, s, d, hc, hsc,
              (List.mem_singleton.1 h1)⟩
        · right
          exact ⟨j2, List.mem_cons_of_mem job hj2, s2, d2, hcalc, hle, hm2⟩
      · rw [if_neg hsc] at h
        rcases ih _ _ h m hm with hacc | ⟨j2, hj2, s2, d2, hcalc, hle, hm2⟩
        · exact Or.inl hacc
        · right
          exact ⟨j2, List.mem_cons_of_mem job hj2, s2, d2, hcalc, hle, hm2⟩

lemma scoreStudentsLoop_mem (db : DB) (job_id : Nat) (min_score : ℚ) (now : String) :
    ∀ (students : List Student) (acc res : List CandidateResult),
      scoreStudentsLoop db job_id min_score now students acc = some res →
      ∀ c ∈ res, c ∈ acc ∨ ∃ student ∈ students, ∃ s d,
        calculate_match_score db student.id job_id false now = some (s, d) ∧
        min_score ≤ s ∧ c = mkCandidateResult db student s d := by
  intro students
  induction students with
  | nil =>
    intro acc res h c hc
    simp [scoreStudentsLoop] at h
    subst h
    exact Or.inl hc
  | cons student rest ih =>
    intro acc res h c hc
    rw [scoreStudentsLoop] at h
    rcases hcalc : calculate_match_score db student.id job_id false now with _ | sd
    · rw [hcalc] at h
      simp at h
    · rcases sd with ⟨s, d⟩
      rw [hcalc] at h
      dsimp only at h
      by_cases hsc : min_score ≤ s
      · rw [if_pos hsc] at h
        rcases ih _ _ h c hc with hacc | ⟨s2, hs2, p2, d2, hc2, hle, hm2⟩
        · rcases List.mem_append.1 hacc with h1 | h1
          · exact Or.inl h1
          · right
            exact ⟨student, List.mem_cons_self student rest, s, d, hcalc, hsc,
              (List.mem_singleton.1 h1)⟩
        · right
          exact ⟨s2, List.mem_cons_of_mem student hs2, p2, d2, hc2, hle, hm2⟩
      · rw [if_neg hsc] at h
        rcases ih _ _ h c hc with hacc | ⟨s2, hs2, p2, d2, hc2, hle, hm2⟩
        · exact Or.inl hacc
        · right
          exact ⟨s2, List.mem_cons_of_mem student hs2, p2, d2, hc2, hle, hm2⟩



lemma scoreJobsLoop_length_mono (db : DB) (student_id : Nat) (now : String)
    (a b : ℚ) (hab : a ≤ b) :
    ∀ (jobs : List Job) (accA accB : List MatchingResult)
      (resA resB : List MatchingResult), accB.length ≤ accA.length →
      scoreJobsLoop db student_id a now jobs accA = some resA →
      scoreJobsLoop db student_id b now jobs accB = some resB →
      resB.length ≤ resA.length := by
  intro jobs
  induction jobs with
  | nil =>
    intro accA accB resA resB hlen hA hB
    simp [scoreJobsLoop] at hA hB
    subst hA
    subst hB
    exact hlen
  | cons job rest ih =>
    intro accA accB resA resB hlen hA hB
    rw [scoreJobsLoop] at hA hB
    rcases hc : calculate_match_score db student_id job.id false now with _ | sd
    · rw [hc] at hA
      simp at hA
    · rcases sd with ⟨s, d⟩
      rw [hc] at hA hB
      dsimp only at hA hB
      by_cases hbs : b ≤ s
      · rw [if_pos hbs] at hB
        rw [if_pos (le_trans hab hbs)] at hA
        refine ih _ _ _ _ ?_ hA hB
        simp only [List.length_append, List.length_cons, List.length_nil]
        omega
      · rw [if_neg hbs] at hB
        by_cases has : a ≤ s
        · rw [if_pos has] at hA
          refine ih _ _ _ _ ?_ hA hB
          simp only [List.length_append, List.length_cons, List.length_nil]
          omega
        · rw [if_neg has] at hA
          exact ih _ _ _ _ hlen hA hB

lemma scoreStudentsLoop_length_mono (db : DB) (job_id : Nat) (now : String)
    (a b : ℚ) (hab : a ≤ b) :
    ∀ (students : List Student) (accA accB : List CandidateResult)
      (resA resB : List CandidateResult), accB.length ≤ accA.length →
      scoreStudentsLoop db job_id a now students accA = some resA →
      scoreStudentsLoop db job_id b now students accB = some resB →
      resB.length ≤ resA.length := by
  intro students
  induction students with
  | nil =>
    intro accA accB resA resB hlen hA hB
    simp [scoreStudentsLoop] at hA hB
    subst hA
    subst hB
    exact hlen
  | cons student rest ih =>
    intro accA accB resA resB hlen hA hB
    rw [scoreStudentsLoop] at hA hB
    rcases hc : calculate_match_score db student.id job_id false now with _ | sd
    · rw [hc] at hA
      simp at hA
    · rcases sd with ⟨s, d⟩
      rw [hc] at hA hB
      dsimp only at hA hB
      by_cases hbs : b ≤ s
      · rw [if_pos hbs] at hB
        rw [if_pos (le_trans hab hbs)] at hA
        refine ih _ _ _ _ ?_ hA hB
        simp only [List.length_append, List.length_cons, List.length_nil]
        omega
      · rw [if_neg hbs] at hB
        by_cases has : a ≤ s
        · rw [if_pos has] at hA
          refine ih _ _ _ _ ?_ hA hB
          simp only [List.length_append, List.length_cons, List.length_nil]
          omega
        · rw [if_neg has] at hA
          exact ih _ _ _ _ hlen hA hB

lemma scoreJobsLoop_total (db : DB) (student_id : Nat) (min_score : ℚ) (now : String)
    (h : ∀ jid : Nat, (calculate_match_score db student_id jid false now).isSome) :
    ∀ (jobs : List Job) (acc : List MatchingResult),
      (scoreJobsLoop db student_id min_score now jobs acc).isSome := by
  intro jobs
  induction jobs with
  | nil =>
    intro acc
    simp [scoreJobsLoop]
  | cons job rest ih =>
    intro acc
    rw [scoreJobsLoop]
    rcases hc : calculate_match_score db student_id job.id false now with _ | sd
    · have := h job.id
      rw [hc] at this
      exact absurd this (by simp)
    · rcases sd with ⟨s, d⟩
      dsimp only
      by_cases hsc : min_score ≤ s
      · rw [if_pos hsc]
        exact ih _
      · rw [if_neg hsc]
        exact ih _

lemma scoreStudentsLoop_total (db : DB) (job_id : Nat) (min_score : ℚ) (now : String)
    (h : ∀ sid : Nat, (calculate_match_score db sid job_id false now).isSome) :
    ∀ (students : List Student) (acc : List CandidateResult),
      (scoreStudentsLoop db job_id min_score now students acc).isSome := by
  intro students
  induction students with
  | nil =>
    intro acc
    simp [scoreStudentsLoop]
  | cons student rest ih =>
    intro acc
    rw [scoreStudentsLoop]
    rcases hc : calculate_match_score db student.id job_id false now with _ | sd
    · have := h student.id
      rw [hc] at this
      exact absurd this (by simp)
    · rcases sd with ⟨s, d⟩
      dsimp only
      by_cases hsc : min_score ≤ s
      · rw [if_pos hsc]
        exact ih _
      · rw [if_neg hsc]
        exact ih _

lemma scoreJobsLoop_skip (db : DB) (student_id : Nat) (min_score : ℚ) (now : String)
    (hmin : ¬ min_score ≤ 0)
    (hz : ∀ jid : Nat, calculate_match_score db student_id jid false now =
      some (0, Breakdown.error "Student or Job not found")) :
    ∀ (jobs : List Job) (acc : List MatchingResult),
      scoreJobsLoop db student_id min_score now jobs acc = some acc := by
  intro jobs
  induction jobs with
  | nil =>
    intro acc
    rfl
  | cons job rest ih =>
    intro acc
    rw [scoreJobsLoop, hz job.id]
    dsimp only
    rw [if_neg hmin]
    exact ih acc

lemma scoreStudentsLoop_skip (db : DB) (job_id : Nat) (min_score : ℚ) (now : String)
    (hmin : ¬ min_score ≤ 0)
    (hz : ∀ sid : Nat, calculate_match_score db sid job_id false now =
      some (0, Breakdown.error "Student or Job not found")) :
    ∀ (students : List Student) (acc : List CandidateResult),
      scoreStudentsLoop db job_id min_score now students acc = some acc := by
  intro students
  induction students with
  | nil =>
    intro acc
    rfl
  | cons student rest ih =>
    intro acc
    rw [scoreStudentsLoop, hz student.id]
    dsimp only
    rw [if_neg hmin]
    exact ih acc

/-- C4: ranked results contain only open opportunities (resp. active-account
candidates) scoring at least `min_score`, are sorted with descending adjacent
match percentages, and have length at most `limit`. -/
theorem C4_ranking_properties (db : DB) (student_id job_id : Nat) (min_score : ℚ)
    (limit : Nat) (now : String)
    (resJ : List MatchingResult) (resS : List CandidateResult)
    (hJ : find_matches_for_student db student_id min_score limit now = some resJ)
    (hS : find_candidates_for_job db job_id min_score limit now = some resS) :
    ((∀ m ∈ resJ, min_score ≤ m.match_percentage ∧
        ∃ job ∈ db.jobs, job.status = JobStatus.OPEN ∧ m.job_id = job.id) ∧
      resJ.Chain' (fun x y => y.match_percentage ≤ x.match_percentage) ∧
      resJ.length ≤ limit) ∧
    ((∀ c ∈ resS, min_score ≤ c.match_percentage ∧
        ∃ student ∈ db.students, isActiveStudent db student = true ∧
          c.student_id = student.id) ∧
      resS.Chain' (fun x y => y.match_percentage ≤ x.match_percentage) ∧
      resS.length ≤ limit) := by
  constructor
  · rw [find_matches_for_student] at hJ
    rcases hL : scoreJobsLoop db student_id min_score now (openJobs db) [] with _ | r
    · rw [hL] at hJ
      simp at hJ
    · rw [hL] at hJ
      simp only [Option.map_some', Option.some.injEq] at hJ
      subst hJ
      refine ⟨?_, ?_, ?_⟩
      · intro m hm
        have hm1 : m ∈ r.mergeSort matchLE := List.take_subset _ _ hm
        have hm2 : m ∈ r := List.mem_mergeSort.1 hm1
        rcases scoreJobsLoop_mem db student_id min_score now (openJobs db) [] r hL m hm2 with
          habs | ⟨job, hjob, s, d, hcalc, hle, hmk⟩
        · exact absurd habs (List.not_mem_nil m)
        · obtain ⟨hjdb, hstat⟩ := List.mem_filter.1 hjob
          subst hmk
          exact ⟨hle, job, hjdb, by simpa using hstat, rfl⟩
      · have hp := @List.sorted_mergeSort MatchingResult matchLE matchLE_trans matchLE_total r
        have hp2 : (r.mergeSort matchLE).Pairwise
            (fun x y => y.match_percentage ≤ x.match_percentage) := by
          refine hp.imp ?_
          intro x y hxy
          simpa [matchLE] using hxy
        exact (List.Pairwise.sublist (List.take_sublist _ _) hp2).chain'
      · rw [List.length_take]
        exact min_le_left _ _
  · rw [find_candidates_for_job] at hS
    rcases hL : scoreStudentsLoop db job_id min_score now (activeStudents db) [] with _ | r
    · rw [hL] at hS
      simp at hS
    · rw [hL] at hS
      simp only [Option.map_some', Option.some.injEq] at hS
      subst hS
      refine ⟨?_, ?_, ?_⟩
      · intro c hc
        have hc1 : c ∈ r.mergeSort candidateLE := List.take_subset _ _ hc
        have hc2 : c ∈ r := List.mem_mergeSort.1 hc1
        rcases scoreStudentsLoop_mem db job_id min_score now (activeStudents db) [] r hL c hc2 with
          habs | ⟨student, hstu, s, d, hcalc, hle, hmk⟩
        · exact absurd habs (List.not_mem_nil c)
        · obtain ⟨hsdb, hact⟩ := List.mem_filter.1 hstu
          subst hmk
          exact ⟨hle, student, hsdb, hact, rfl⟩
      · have hp := @List.sorted_mergeSort CandidateResult candidateLE candidateLE_trans candidateLE_total r
        have hp2 : (r.mergeSort candidateLE).Pairwise
            (fun x y => y.match_percentage ≤ x.match_percentage) := by
          refine hp.imp ?_
          intro x y hxy
          simpa [candidateLE] using hxy
        exact (List.Pairwise.sublist (List.take_sublist _ _) hp2).chain'
      · rw [List.length_take]
        exact min_le_left _ _

/-- C5: raising the minimum score threshold never increases the size of a
ranked result set, for both rankers. -/
theorem C5_threshold_monotone (db : DB) (student_id job_id : Nat) (a b : ℚ)
    (hab : a ≤ b) (limit : Nat) (now : String)
    (resA resB : List MatchingResult) (resSA resSB : List CandidateResult)
    (hA : find_matches_for_student db student_id a limit now = some resA)
    (hB : find_matches_for_student db student_id b limit now = some resB)
    (hSA : find_candidates_for_job db job_id a limit now = some resSA)
    (hSB : find_candidates_for_job db job_id b limit now = some resSB) :
    resB.length ≤ resA.length ∧ resSB.length ≤ resSA.length := by
  constructor
  · rw [find_matches_for_student] at hA hB
    rcases hLA : scoreJobsLoop db student_id a now (openJobs db) [] with _ | rA
    · rw [hLA] at hA
      simp at hA
    rcases hLB : scoreJobsLoop db student_id b now (openJobs db) [] with _ | rB
    · rw [hLB] at hB
      simp at hB
    rw [hLA] at hA
    rw [hLB] at hB
    simp only [Option.map_some', Option.some.injEq] at hA hB
    subst hA
    subst hB
    have hlen := scoreJobsLoop_length_mono db student_id now a b hab (openJobs db)
      [] [] rA rB le_rfl hLA hLB
    rw [List.length_take, List.length_take, List.length_mergeSort, List.length_mergeSort]
    exact min_le_min le_rfl hlen
  · rw [find_candidates_for_job] at hSA hSB
    rcases hLA : scoreStudentsLoop db job_id a now (activeStudents db) [] with _ | rA
    · rw [hLA] at hSA
      simp at hSA
    rcases hLB : scoreStudentsLoop db job_id b now (activeStudents db) [] with _ | rB
    · rw [hLB] at hSB
      simp at hSB
    rw [hLA] at hSA
    rw [hLB] at hSB
    simp only [Option.map_some', Option.some.injEq] at hSA hSB
    subst hSA
    subst hSB
    have hlen := scoreStudentsLoop_length_mono db job_id now a b hab (activeStudents db)
      [] [] rA rB le_rfl hLA hLB
    rw [List.length_take, List.length_take, List.length_mergeSort, List.length_mergeSort]
    exact min_le_min le_rfl hlen

/-- C7 (amended): a ranking scan over an unresolvable candidate or opportunity
id completes without aborting, and whenever `min_score` is positive the
unresolvable pairing is excluded (it scores 0.0); with `min_score ≤ 0` the
zero-scored error pairing is retained, which refutes the unconditional
exclusion claim. -/
theorem C7_unresolvable_skip (db : DB) (student_id job_id : Nat) (min_score : ℚ)
    (limit : Nat) (now : String)
    (hs : lookupStudent db student_id = none) (hj : lookupJob db job_id = none) :
    (∃ res, find_matches_for_student db student_id min_score limit now = some res ∧
      (0 < min_score → res = [])) ∧
    (∃ res, find_candidates_for_job db job_id min_score limit now = some res ∧
      (0 < min_score → res = [])) := by
  constructor
  · have hz : ∀ jid : Nat, calculate_match_score db student_id jid false now =
        some (0, Breakdown.error "Student or Job not found") :=
      fun jid => calc_not_found db student_id jid false now (Or.inl hs)
    by_cases hmin : 0 < min_score
    · have hloop := scoreJobsLoop_skip db student_id min_score now
        (not_le.2 hmin) hz (openJobs db) []
      refine ⟨[], ?_, fun _ => rfl⟩
      rw [find_matches_for_student, hloop]
      simp
    · have htot := scoreJobsLoop_total db student_id min_score now
        (fun jid => by rw [hz jid]; rfl) (openJobs db) []
      obtain ⟨r, hr⟩ := Option.isSome_iff_exists.1 htot
      exact ⟨(r.mergeSort matchLE).take limit,
        by rw [find_matches_for_student, hr]; rfl, fun hc => absurd hc hmin⟩
  · have hz : ∀ sid : Nat, calculate_match_score db sid job_id false now =
        some (0, Breakdown.error "Student or Job not found") :=
      fun sid => calc_not_found db sid job_id false now (Or.inr hj)
    by_cases hmin : 0 < min_score
    · have hloop := scoreStudentsLoop_skip db job_id min_score now
        (not_le.2 hmin) hz (activeStudents db) []
      refine ⟨[], ?_, fun _ => rfl⟩
      rw [find_candidates_for_job, hloop]
      simp
    · have htot := scoreStudentsLoop_total db job_id min_score now
        (fun sid => by rw [hz sid]; rfl) (activeStudents db) []
      obtain ⟨r, hr⟩ := Option.isSome_iff_exists.1 htot
      exact ⟨(r.mergeSort candidateLE).take limit,
        by rw [find_candidates_for_job, hr]; rfl, fun hc => absurd hc hmin⟩

/-- C7 counterexample: with `min_score = 0` a nonexistent student id still
produces a ranked entry for the open job (the unresolvable pairing is not
excluded). -/
theorem C7_counterexample :
    lookupStudent exDb7 99 = none ∧
    (find_matches_for_student exDb7 99 0 10 "T").map
        (fun l => l.map (fun m => m.job_id)) = some [1] := by
  refine ⟨rfl, ?_⟩
  have hc : calculate_match_score exDb7 99 1 false "T" =
      some (0, Breakdown.error "Student or Job not found") :=
    calc_not_found exDb7 99 1 false "T" (Or.inl rfl)
  simp only [find_matches_for_student]
  rw [show openJobs exDb7 = [{ id := 1, company_id := 1, title := "Dev", location := none, work_type := none, salary_range := none, minimum_gpa := 0, minimum_semester := none, preferred_courses := none, status := JobStatus.OPEN }] from rfl]
  simp [scoreJobsLoop, hc, mkMatchingResult]

/-- Witness for the amended C7 at a concrete database with no students and a
positive threshold. -/
theorem C7_witness :
    (∃ res, find_matches_for_student exDb7 99 1 10 "T" = some res ∧
      ((0:ℚ) < 1 → res = [])) ∧
    (∃ res, find_candidates_for_job exDb7 99 1 10 "T" = some res ∧
      ((0:ℚ) < 1 → res = [])) :=
  C7_unresolvable_skip exDb7 99 99 1 10 "T" rfl rfl



lemma find_matches_exDbA (min_score : ℚ) (hm : min_score ≤ 100) :
    find_matches_for_student exDbA 1 min_score 10 "T" = some [exMatchA] := by
  simp only [find_matches_for_student]
  rw [show openJobs exDbA = [{ id := 1, company_id := 1, title := "Dev", location := none, work_type := none, salary_range := none, minimum_gpa := 0, minimum_semester := none, preferred_courses := none, status := JobStatus.OPEN }] from rfl]
  rw [scoreJobsLoop]
  rw [show ({ id := 1, company_id := 1, title := "Dev", location := none, work_type := none, salary_range := none, minimum_gpa := 0, minimum_semester := none, preferred_courses := none, status := JobStatus.OPEN } : Job).id = 1 from rfl]
  rw [calc_exDbA false "T"]
  dsimp only
  rw [if_pos hm]
  rw [scoreJobsLoop]
  simp [exMatchA, mkMatchingResult, lookupCompany, exDbA, Breakdown.rawScoreD,
    Breakdown.matchedD, Breakdown.missingD, Breakdown.gpaMatchD,
    Breakdown.semesterMatchD, Breakdown.courseMatchD, Breakdown.recommendationD]

lemma find_candidates_exDbA (min_score : ℚ) (hm : min_score ≤ 100) :
    find_candidates_for_job exDbA 1 min_score 10 "T" = some [exCandA] := by
  simp only [find_candidates_for_job]
  rw [show activeStudents exDbA = [{ id := 1, user_id := 1, full_name := "Ana", registration_number := "R1", course := "CS", semester := 4, gpa := 8 }] from rfl]
  rw [scoreStudentsLoop]
  rw [show ({ id := 1, user_id := 1, full_name := "Ana", registration_number := "R1", course := "CS", semester := 4, gpa := 8 } : Student).id = 1 from rfl]
  rw [calc_exDbA false "T"]
  dsimp only
  rw [if_pos hm]
  rw [scoreStudentsLoop]
  simp [exCandA, mkCandidateResult, lookupUser, exDbA, Breakdown.rawScoreD,
    Breakdown.matchedD, Breakdown.missingD]

/-- Witness for C4 at a concrete database: one open job and one active
student, threshold 50, limit 10. -/
theorem C4_witness :
    ((∀ m ∈ [exMatchA], (50:ℚ) ≤ m.match_percentage ∧
        ∃ job ∈ exDbA.jobs, job.status = JobStatus.OPEN ∧ m.job_id = job.id) ∧
      List.Chain' (fun x y : MatchingResult =>
        y.match_percentage ≤ x.match_percentage) [exMatchA] ∧
      ([exMatchA] : List MatchingResult).length ≤ 10) ∧
    ((∀ c ∈ [exCandA], (50:ℚ) ≤ c.match_percentage ∧
        ∃ student ∈ exDbA.students, isActiveStudent exDbA student = true ∧
          c.student_id = student.id) ∧
      List.Chain' (fun x y : CandidateResult =>
        y.match_percentage ≤ x.match_percentage) [exCandA] ∧
      ([exCandA] : List CandidateResult).length ≤ 10) :=
  C4_ranking_properties exDbA 1 1 50 10 "T" [exMatchA] [exCandA]
    (find_matches_exDbA 50 (by norm_num)) (find_candidates_exDbA 50 (by norm_num))

/-- Witness for C5 at a concrete database with thresholds 50 and 60. -/
theorem C5_witness :
    ([exMatchA] : List MatchingResult).length ≤ ([exMatchA] : List MatchingResult).length ∧
    ([exCandA] : List CandidateResult).length ≤ ([exCandA] : List CandidateResult).length :=
  C5_threshold_monotone exDbA 1 1 50 60 (by norm_num) 10 "T"
    [exMatchA] [exMatchA] [exCandA] [exCandA]
    (find_matches_exDbA 50 (by norm_num)) (find_matches_exDbA 60 (by norm_num))
    (find_candidates_exDbA 50 (by norm_num)) (find_candidates_exDbA 60 (by norm_num))

end CareerMatching
